import Mathlib

/-!
Shallow embedding of the model-artifact verification and synchronization
subsystem of `zonos.py` (repository Skyrim-jank), together with theorems
settling the frozen claims about it.

Conventions of the embedding:
* A filesystem is a finite association list from paths (lists of path
  components) to entries; the list order models directory iteration order.
* Python exceptions are explicit: computations run in `Except PyEvent`,
  where `PyEvent.exc` is an ordinary exception (catchable by
  `except Exception`) and `PyEvent.exit` is `sys.exit` / `SystemExit`
  (not catchable by `except Exception`).
* JSON documents are a small inductive `JVal`; the content of a file is
  either raw text (never valid JSON in this model — this covers the empty
  file and malformed documents) or a parsed JSON document.
* SHA-256 digests are modelled by an injective, never-empty stand-in
  function of the file content.
* Ownership / permission normalization (`chown`/`chmod`) is outside the
  model and treated as a no-op on the filesystem; `mkdir` is modelled.
-/

namespace Zonos

/-- Python exception kinds raised by the code under study.  `valueError`
and `otherExc` carry the `str(e)` message. -/
inductive PyExc where
  | typeError
  | fileNotFound
  | notADirectory
  | isADirectory
  | jsonDecode
  | valueError (msg : String)
  | otherExc (msg : String)
  deriving Repr, DecidableEq

/-- An effect of a Python computation: either an ordinary exception
(caught by `except Exception`) or a `sys.exit` (`SystemExit`, which
`except Exception` does not catch). -/
inductive PyEvent where
  | exc (e : PyExc)
  | exit (code : Int)
  deriving Repr, DecidableEq

/-- Python computations returning `α`, with exceptions and process exit
as explicit outcomes. -/
abbrev Py (α : Type) := Except PyEvent α

/-- JSON values, as produced by `json.load` and written by `json.dump`. -/
inductive JVal where
  | jstr (s : String)
  | jnum (n : Int)
  | jarr (xs : List JVal)
  | jobj (kvs : List (String × JVal))
  deriving Repr

mutual

/-- Structural equality of JSON values (Python `==` on decoded documents). -/
def JVal.beq : JVal → JVal → Bool
  | .jstr a, .jstr b => a == b
  | .jnum a, .jnum b => a == b
  | .jarr xs, .jarr ys => JVal.beqList xs ys
  | .jobj xs, .jobj ys => JVal.beqPairs xs ys
  | _, _ => false

/-- Equality of JSON arrays, element by element. -/
def JVal.beqList : List JVal → List JVal → Bool
  | [], [] => true
  | x :: xs, y :: ys => JVal.beq x y && JVal.beqList xs ys
  | _, _ => false

/-- Equality of JSON objects, in key order. -/
def JVal.beqPairs : List (String × JVal) → List (String × JVal) → Bool
  | [], [] => true
  | (k, v) :: xs, (l, w) :: ys => k == l && JVal.beq v w && JVal.beqPairs xs ys
  | _, _ => false

end

mutual

/-- Serialization of a JSON value (`json.dump`); only used to model the
digest of a file whose content is a JSON document. -/
def JVal.dump : JVal → String
  | .jstr s => "\"" ++ s ++ "\""
  | .jnum n => toString n
  | .jarr xs => "[" ++ JVal.dumpList xs ++ "]"
  | .jobj kvs => "\x7b" ++ JVal.dumpPairs kvs ++ "\x7d"

/-- Serialization of the elements of a JSON array. -/
def JVal.dumpList : List JVal → String
  | [] => ""
  | [x] => JVal.dump x
  | x :: xs => JVal.dump x ++ ", " ++ JVal.dumpList xs

/-- Serialization of the fields of a JSON object. -/
def JVal.dumpPairs : List (String × JVal) → String
  | [] => ""
  | [(k, v)] => "\"" ++ k ++ "\": " ++ JVal.dump v
  | (k, v) :: xs => "\"" ++ k ++ "\": " ++ JVal.dump v ++ ", " ++ JVal.dumpPairs xs

end

/-- Python truthiness of a JSON value (`if not verification_data`). -/
def JVal.falsy : JVal → Bool
  | .jstr s => s == ""
  | .jnum n => n == 0
  | .jarr xs => xs.isEmpty
  | .jobj kvs => kvs.isEmpty

/-- Contiguous-sublist test on character lists (the heart of Python's
substring operator `in`). -/
def charsInfix : List Char → List Char → Bool
  | n, [] => n.isEmpty
  | n, c :: t => n.isPrefixOf (c :: t) || charsInfix n t

/-- Python `key in v` for a string key: object → key lookup, string →
substring test, array → element membership, number → `TypeError`. -/
def JVal.pyContains (v : JVal) (k : String) : Py Bool :=
  match v with
  | .jobj kvs => .ok (kvs.any (fun p => p.1 == k))
  | .jstr s => .ok (charsInfix k.data s.data)
  | .jarr xs => .ok (xs.any (fun x => JVal.beq x (.jstr k)))
  | .jnum _ => .error (.exc .typeError)

/-- Python `v[k]` for a string key `k`: only objects support it; a
missing key is a `KeyError` (modelled as `otherExc`). -/
def JVal.pySubscript (v : JVal) (k : String) : Py JVal :=
  match v with
  | .jobj kvs =>
    match kvs.find? (fun p => p.1 == k) with
    | some p => .ok p.2
    | none => .error (.exc (.otherExc ("KeyError: " ++ k)))
  | _ => .error (.exc .typeError)

/-- Replace the first binding of `k` in an object's field list, keeping
its position; append at the end when `k` is new. -/
def JVal.setPair : List (String × JVal) → String → JVal → List (String × JVal)
  | [], k, w => [(k, w)]
  | (l, v) :: rest, k, w =>
    if l == k then (l, w) :: rest else (l, v) :: JVal.setPair rest k w

/-- Python `v[k] = w` on a decoded document: replaces the first binding
of `k` in place, or appends a new binding (dict insertion order). -/
def JVal.setKey (v : JVal) (k : String) (w : JVal) : Py JVal :=
  match v with
  | .jobj kvs => .ok (.jobj (JVal.setPair kvs k w))
  | _ => .error (.exc .typeError)

/-- A path is its list of components (`pathlib.Path` relative to an
abstract root). -/
abbrev FPath := List String

/-- `p / s` on paths. -/
def FPath.child (p : FPath) (s : String) : FPath := p ++ [s]

/-- `p.name`: the last component. -/
def FPath.name (p : FPath) : String := p.getLastD ""

/-- File content: raw text (in this model never valid JSON — this is how
the empty file and malformed documents appear) or a parsed JSON
document (what `json.dump` wrote). -/
inductive Content where
  | text (s : String)
  | json (v : JVal)
  deriving Repr

/-- A directory entry: a file with content and modification time, or a
directory with modification time. -/
inductive Entry where
  | file (c : Content) (mtime : Nat)
  | dir (mtime : Nat)
  deriving Repr

/-- A filesystem: an association list from paths to entries, in
directory-iteration order. -/
abbrev FS := List (FPath × Entry)

/-- Look up the entry at a path. -/
def FS.lookup (fs : FS) (p : FPath) : Option Entry :=
  (List.find? (fun e => e.1 == p) fs).map (fun e => e.2)

/-- `p.exists()`. -/
def FS.pexists (fs : FS) (p : FPath) : Bool := (fs.lookup p).isSome

/-- `p.is_dir()`. -/
def FS.isDir (fs : FS) (p : FPath) : Bool :=
  match fs.lookup p with
  | some (.dir _) => true
  | _ => false

/-- `p.stat().st_mtime` (0 when the path is absent; only queried on
existing entries in the code under study). -/
def FS.mtimeD (fs : FS) (p : FPath) : Nat :=
  match fs.lookup p with
  | some (.file _ m) => m
  | some (.dir m) => m
  | none => 0

/-- The immediate children of `p`, in listing order. -/
def FS.children (fs : FS) (p : FPath) : List FPath :=
  fs.filterMap (fun e =>
    if e.1.length == p.length + 1 && p.isPrefixOf e.1 then some e.1 else none)

/-- `p.iterdir()`: `FileNotFoundError` on an absent path,
`NotADirectoryError` on a file. -/
def FS.iterdir (fs : FS) (p : FPath) : Py (List FPath) :=
  match fs.lookup p with
  | none => .error (.exc .fileNotFound)
  | some (.file _ _) => .error (.exc .notADirectory)
  | some (.dir _) => .ok (fs.children p)

/-- Write (create or replace) the entry at a path, keeping its listing
position when it already exists. -/
def FS.write (fs : FS) (p : FPath) (e : Entry) : FS :=
  match fs with
  | [] => [(p, e)]
  | (q, f) :: rest =>
    if q == p then (q, e) :: rest else (q, f) :: FS.write rest p e

/-- Remove the entry at a path (`unlink`). -/
def FS.remove (fs : FS) (p : FPath) : FS :=
  fs.filter (fun e => !(e.1 == p))

/-- `mkdir(parents=True, exist_ok=True)` as performed by
`ensure_directory_permissions`: create the directory entry when absent
(ownership and permissions are outside the model). -/
def FS.mkdirp (fs : FS) (p : FPath) : FS :=
  if fs.pexists p then fs else fs ++ [(p, .dir 0)]

/-- Python `max(xs, key=f)` starting from `cur`: the first maximal
element wins ties. -/
def pyMaxBy (f : FPath → Nat) : FPath → List FPath → FPath
  | cur, [] => cur
  | cur, x :: xs => pyMaxBy f (if f x > f cur then x else cur) xs

/-- `s.split("/")[-1]`. -/
def lastSegment (s : String) : String := (s.splitOn "/").getLastD ""

/-- Substring test (Python `needle in hay` on strings). -/
def strContains (hay needle : String) : Bool := charsInfix needle.data hay.data

/-- Python `s.strip()`: whitespace removed from both ends. -/
def pyStrip (s : String) : String :=
  ⟨((s.data.dropWhile Char.isWhitespace).reverse.dropWhile
      Char.isWhitespace).reverse⟩

/-- ASCII lower-casing of one character (the repository only compares
ASCII tokens). -/
def lowerChar (c : Char) : Char :=
  if 'A' ≤ c ∧ c ≤ 'Z' then Char.ofNat (c.toNat + 32) else c

/-- Python `s.lower()`. -/
def pyLower (s : String) : String := ⟨s.data.map lowerChar⟩

/-- Accumulate decimal digits; `none` on a non-digit or on no digit at
all. -/
def digitsToNat : List Char → Option Nat → Option Nat
  | [], acc => acc
  | c :: rest, acc =>
    if c.isDigit then
      digitsToNat rest (some ((acc.getD 0) * 10 + (c.toNat - 48)))
    else none

/-- Python `int(s)` on an already-stripped string: optional sign and
decimal digits, `none` on anything else. -/
def pyIntParse (s : String) : Option Int :=
  match s.data with
  | '-' :: rest => (digitsToNat rest none).map (fun n => -(n : Int))
  | '+' :: rest => (digitsToNat rest none).map (fun n => (n : Int))
  | l => (digitsToNat l none).map (fun n => (n : Int))

/-- One entry of `MODEL_CONFIGS`: record key, display name, required
files (`files_to_check`). -/
structure ModelConfig where
  name : String
  description : String
  files_to_check : List String

/-- The static artifact registry `MODEL_CONFIGS` (zonos.py lines
212-223), in dict insertion order. -/
def MODEL_CONFIGS : List (String × ModelConfig) :=
  [("Zyphra/Zonos-v0.1-hybrid",
    ⟨"hybrid_model", "Zonos v0.1 Hybrid Model",
     ["config.json", "pytorch_model.bin", "tokenizer.json"]⟩),
   ("Zyphra/Zonos-v0.1-transformer",
    ⟨"transformer_model", "Zonos v0.1 Transformer Model",
     ["config.json", "pytorch_model.bin", "tokenizer.json"]⟩)]

/-- `MODEL_CONFIGS.get(model_name)`. -/
def configsGet (m : String) : Option ModelConfig :=
  (MODEL_CONFIGS.find? (fun p => p.1 == m)).map (fun p => p.2)

/-- `SCRIPT_DIR` (zonos.py line 197), as an abstract root component. -/
def SCRIPT_DIR : FPath := ["SCRIPT_DIR"]

/-- `INSTALL_DIR = SCRIPT_DIR` (line 198). -/
def INSTALL_DIR : FPath := SCRIPT_DIR

/-- `SCRIPT_DIR / MODELS_DOWNLOAD_DIR` with
`MODELS_DOWNLOAD_DIR = "zonos_download_models"` (line 208). -/
def models_dir_path : FPath := SCRIPT_DIR.child "zonos_download_models"

/-- `models_dir / MODEL_VERIFICATION_FILE` with
`MODEL_VERIFICATION_FILE = "model_verification.json"` (line 209). -/
def verification_file_path : FPath :=
  models_dir_path.child "model_verification.json"

/-- `INSTALL_DIR / REPO_NAME` with `REPO_NAME = "Zonos"` (line 200). -/
def repo_dir_path : FPath := INSTALL_DIR.child "Zonos"

/-- `str(p)` on a path. -/
def pathToString (p : FPath) : String := String.intercalate "/" p

/-- Stand-in for the SHA-256 hex digest of a file's content: injective
per content and never the empty string (a real hex digest has 64
characters).  The claims under study never depend on digest values
beyond equality of contents. -/
def sha256Hex (c : Content) : String :=
  match c with
  | .text s => "sha256:" ++ s
  | .json v => "sha256j:" ++ v.dump

/-- `calculate_file_hash` (zonos.py 394-404): digest of the file at `p`;
`FileNotFoundError`/`PermissionError` are caught and yield `""` (in this
filesystem model an absent file is the only such case); opening a
directory raises `IsADirectoryError`, which the function does not catch. -/
def calculate_file_hash (p : FPath) (fs : FS) : Py String :=
  match fs.lookup p with
  | some (.file c _) => .ok (sha256Hex c)
  | some (.dir _) => .error (.exc .isADirectory)
  | none => .ok ""

/-- The first candidate path of `get_model_cache_path` (zonos.py 412):
the source line `models_dir / "models--" + model_name.replace("/", "--")`
parses by Python precedence as `(models_dir / "models--") + str`, and
`PosixPath.__add__` does not exist, so evaluating it raises `TypeError`
unconditionally. -/
def pathPlusStr (_p : FPath) (_s : String) : Py FPath :=
  .error (.exc .typeError)

/-- `get_model_cache_path` (zonos.py 407-426): candidate paths in fixed
order, then a scan of the cache root's immediate subdirectories for one
whose name contains the identity's last segment.  The first candidate's
construction raises `TypeError` (see `pathPlusStr`), before any
filesystem access. -/
def get_model_cache_path (model_name : String) (models_dir : FPath)
    (fs : FS) : Py (Option FPath) :=
  match pathPlusStr (models_dir.child "models--")
      (model_name.replace "/" "--") with
  | .error e => .error e
  | .ok p0 =>
    let possible_paths : List FPath :=
      [p0,
       models_dir.child (model_name.replace "/" "--"),
       models_dir.child (lastSegment model_name)]
    match possible_paths.find? (fun p => fs.pexists p) with
    | some p => .ok (some p)
    | none =>
      match fs.iterdir models_dir with
      | .error e => .error e
      | .ok subs =>
        match subs.find? (fun q =>
            fs.isDir q && strContains q.name (lastSegment model_name)) with
        | some q => .ok (some q)
        | none => .ok none

/-- The snapshot-directory selection inlined in `verify_model_integrity`
(zonos.py 450-457) and `save_model_verification` (501-505): when
`cache_path/snapshots` exists, the snapshot subdirectory with the
greatest modification time (first maximal wins ties, as Python `max`)
becomes the effective file root; otherwise `cache_path` itself. -/
def latest_files_dir (cache_path : FPath) (fs : FS) : Py FPath :=
  if fs.pexists (cache_path.child "snapshots") then
    match fs.iterdir (cache_path.child "snapshots") with
    | .error e => .error e
    | .ok subs =>
      match subs.filter (fun d => fs.isDir d) with
      | [] => .ok cache_path
      | d :: ds => .ok (pyMaxBy (fun x => fs.mtimeD x) d ds)
  else .ok cache_path

/-- The per-file loop of `verify_model_integrity` (zonos.py 459-473):
missing file, empty digest, missing stored hash, or mismatched stored
hash each end the loop with `False`; `True` only when every required
file matches. -/
def verifyFiles (files : List String) (dir : FPath) (stored : JVal)
    (fs : FS) : Py Bool :=
  match files with
  | [] => .ok true
  | f :: rest =>
    if !(fs.pexists (dir.child f)) then .ok false
    else
      match calculate_file_hash (dir.child f) fs with
      | .error e => .error e
      | .ok h =>
        if h == "" then .ok false
        else
          match stored.pyContains f with
          | .error e => .error e
          | .ok b =>
            if !b then .ok false
            else
              match stored.pySubscript f with
              | .error e => .error e
              | .ok sv =>
                if !(JVal.beq sv (.jstr h)) then .ok false
                else verifyFiles rest dir stored fs

/-- `verify_model_integrity` (zonos.py 429-476): unknown artifact →
`False`; then resolve the cache path (which raises `TypeError`, see
`get_model_cache_path`); absent location → `False`; missing record →
`False`; then verify each required file under the effective file root. -/
def verify_model_integrity (model_name : String) (models_dir : FPath)
    (verification_data : JVal) (fs : FS) : Py Bool :=
  match configsGet model_name with
  | none => .ok false
  | some cfg =>
    match get_model_cache_path model_name models_dir fs with
    | .error e => .error e
    | .ok none => .ok false
    | .ok (some cache_path) =>
      if !(fs.pexists cache_path) then .ok false
      else
        match verification_data.pyContains cfg.name with
        | .error e => .error e
        | .ok b =>
          if !b then .ok false
          else
            match verification_data.pySubscript cfg.name with
            | .error e => .error e
            | .ok stored_hashes =>
              match latest_files_dir cache_path fs with
              | .error e => .error e
              | .ok model_files_dir =>
                verifyFiles cfg.files_to_check model_files_dir
                  stored_hashes fs

/-- `json.load` on a file's content: raw text (the empty file and every
malformed document) raises `JSONDecodeError`; a document written by
`json.dump` parses back to itself. -/
def json_load (c : Content) : Py JVal :=
  match c with
  | .text _ => .error (.exc .jsonDecode)
  | .json v => .ok v

/-- `load_verification_data` (zonos.py 535-545): `{}` when the file does
not exist; otherwise `json.load` with `JSONDecodeError` and
`FileNotFoundError` caught to `{}`.  Opening a directory raises
`IsADirectoryError`, which is not in the caught tuple. -/
def load_verification_data (verification_file : FPath) (fs : FS) :
    Py JVal :=
  match fs.lookup verification_file with
  | none => .ok (.jobj [])
  | some (.dir _) => .error (.exc .isADirectory)
  | some (.file c _) =>
    match json_load c with
    | .ok v => .ok v
    | .error _ => .ok (.jobj [])

/-- The hash-collection loop of `save_model_verification` (zonos.py
508-512): digest of each required file that exists under the effective
file root; missing files are silently skipped. -/
def collectHashes (files : List String) (dir : FPath) (fs : FS) :
    Py (List (String × JVal)) :=
  match files with
  | [] => .ok []
  | f :: rest =>
    if fs.pexists (dir.child f) then
      match calculate_file_hash (dir.child f) fs with
      | .error e => .error e
      | .ok h =>
        match collectHashes rest dir fs with
        | .error e => .error e
        | .ok tl => .ok ((f, .jstr h) :: tl)
    else collectHashes rest dir fs

/-- `save_model_verification` (zonos.py 479-532): no-op for an unknown
artifact; loads the existing document (lines 486-492 duplicate
`load_verification_data`'s semantics); resolves the cache path (which
raises `TypeError`, see `get_model_cache_path`); on the dead success
path it would update the artifact's key in the loaded document and
rewrite the file (`json.dump`, then permission normalization, modelled
as a no-op on the filesystem).  Returns the resulting filesystem
alongside the outcome. -/
def save_model_verification (model_name : String)
    (models_dir verification_file : FPath) (now : String) (fs : FS) :
    Py Unit × FS :=
  match configsGet model_name with
  | none => (.ok (), fs)
  | some cfg =>
    match load_verification_data verification_file fs with
    | .error e => (.error e, fs)
    | .ok verification_data =>
      match get_model_cache_path model_name models_dir fs with
      | .error e => (.error e, fs)
      | .ok none => (.ok (), fs)
      | .ok (some cache_path) =>
        match latest_files_dir cache_path fs with
        | .error e => (.error e, fs)
        | .ok model_files_dir =>
          match collectHashes cfg.files_to_check model_files_dir fs with
          | .error e => (.error e, fs)
          | .ok model_hashes =>
            let record : JVal := .jobj
              [("hashes", .jobj model_hashes),
               ("model_name", .jstr model_name),
               ("download_time", .jstr now),
               ("cache_path", .jstr (pathToString cache_path))]
            match verification_data.setKey cfg.name record with
            | .error e => (.error e, fs)
            | .ok vd2 =>
              (.ok (),
               fs.write verification_file (.file (.json vd2) 0))

/-- Outcome of attempting an external command: it ran to completion
with an exit status and captured output, its binary was not found
(`FileNotFoundError` from `subprocess`), or launching it raised some
other exception. -/
inductive CmdOutcome where
  | completed (rc : Int) (out : String)
  | notFound
  | raised (msg : String)
  deriving Repr

/-- The external command collaborator: what each argv produces. -/
abbrev CmdEnv := List String → CmdOutcome

/-- A `subprocess.CompletedProcess`: return code and captured stdout. -/
structure Completed where
  rc : Int
  out : String
  deriving Repr, DecidableEq

/-- `run_command` (zonos.py 820-878): a completed command is returned
(with `sys.exit(returncode)` first when `check` is set and the status is
non-zero); a missing binary or an unexpected launch error is fatal —
`sys.exit(1)`, which `except Exception` in callers cannot catch. -/
def run_command (cmds : CmdEnv) (command : List String) (check : Bool) :
    Py Completed :=
  match cmds command with
  | .completed rc out =>
    if check && rc != 0 then .error (.exit rc) else .ok ⟨rc, out⟩
  | .notFound => .error (.exit 1)
  | .raised _ => .error (.exit 1)

/-- The transient repository status returned by
`check_repository_updates`, mirroring the result dictionaries. -/
inductive RepoStatus where
  | not_installed (message : String)
  | up_to_date (commit : String)
  | update_available (current_commit remote_commit : String)
      (commits_behind : Int) (latest_message : String)
  | error_status (message : String)
  deriving Repr, DecidableEq

/-- `str(e)` of the `NotADirectoryError` raised by `os.chdir` on an
existing non-directory path. -/
def chdirMessage (p : FPath) : String :=
  "[Errno 20] Not a directory: " ++ pathToString p

/-- `int(s)` for the commit-count output: `ValueError` (with its
message) on a non-numeric string. -/
def pyInt (s : String) : Except String Int :=
  match pyIntParse s with
  | some n => .ok n
  | none => .error ("invalid literal for int() with base 10: " ++ s)

/-- `check_repository_updates` (zonos.py 1094-1143): `not_installed`
when the repository directory is absent; otherwise change into it (a
failing `chdir` is caught by `except Exception` into an error status
with the exception's message), fetch, read the local and remote refs
with `check=False`, and compare.  Exceptions inside the `try` collapse
to an error status; the `sys.exit` inside `run_command` (missing git
binary, unexpected launch error) is a `SystemExit` and escapes. -/
def check_repository_updates (fs : FS) (cmds : CmdEnv) : Py RepoStatus :=
  if !(fs.pexists repo_dir_path) then
    .ok (.not_installed "Repository not found")
  else if !(fs.isDir repo_dir_path) then
    .ok (.error_status (chdirMessage repo_dir_path))
  else
    match run_command cmds ["git", "fetch", "origin"] false with
    | .error e => .error e
    | .ok _ =>
      match run_command cmds ["git", "rev-parse", "HEAD"] false with
      | .error e => .error e
      | .ok r1 =>
        let current := if r1.rc == 0 then pyStrip r1.out else ""
        match run_command cmds ["git", "rev-parse", "origin/main"] false with
        | .error e => .error e
        | .ok r2 =>
          let remote := if r2.rc == 0 then pyStrip r2.out else ""
          if current != "" && remote != "" then
            if current != remote then
              match run_command cmds
                  ["git", "rev-list", "--count", current ++ ".." ++ remote]
                  false with
              | .error e => .error e
              | .ok r3 =>
                match (if r3.rc == 0 then pyInt (pyStrip r3.out)
                       else .ok 0 : Except String Int) with
                | .error m => .ok (.error_status m)
                | .ok behind =>
                  match run_command cmds
                      ["git", "log", "-1", "--pretty=format:%s",
                       "origin/main"] false with
                  | .error e => .error e
                  | .ok r4 =>
                    let lmsg := if r4.rc == 0 then pyStrip r4.out
                                else "No message"
                    .ok (.update_available (current.take 8)
                          (remote.take 8) behind lmsg)
            else .ok (.up_to_date (current.take 8))
          else .ok (.error_status "Could not determine commit status")

/-- The transient model status returned by `check_model_updates`; an
`updates_avail` entry is (model name, description, reason). -/
inductive ModelStatus where
  | not_downloaded
  | no_verification
  | cannot_check (message : String)
  | updates_avail (models : List (String × String × String))
  | models_current
  | model_error (message : String)
  deriving Repr, DecidableEq

/-- The whole external world a run observes: the filesystem, the
command collaborator, importability of the ML stack, the fetch
collaborator `Zonos.from_pretrained` (`none` = success, `some msg` =
raises with that message), the operator's raw prompt reply, and the
current timestamp. -/
structure World where
  fs : FS
  cmds : CmdEnv
  imports_ok : Bool
  fetch : String → Option String
  choice : String
  now : String

/-- The per-model loop of `check_model_updates` (zonos.py 1164-1192):
a raising fetch probe or any exception from the verifier is caught by
the per-model `except Exception` and tagged `check_failed`; a clean
verification failure is tagged `verification_failed`. -/
def cmLoop (models : List (String × ModelConfig)) (vdata : JVal)
    (fetch : String → Option String) (fs : FS) :
    Py (List (String × String × String)) :=
  match models with
  | [] => .ok []
  | (m, cfg) :: rest =>
    match fetch m with
    | some _ =>
      match cmLoop rest vdata fetch fs with
      | .error e => .error e
      | .ok tl => .ok ((m, cfg.description, "check_failed") :: tl)
    | none =>
      match verify_model_integrity m models_dir_path vdata fs with
      | .error (.exit c) => .error (.exit c)
      | .error (.exc _) =>
        match cmLoop rest vdata fetch fs with
        | .error e => .error e
        | .ok tl => .ok ((m, cfg.description, "check_failed") :: tl)
      | .ok true => cmLoop rest vdata fetch fs
      | .ok false =>
        match cmLoop rest vdata fetch fs with
        | .error e => .error e
        | .ok tl => .ok ((m, cfg.description, "verification_failed") :: tl)

/-- `check_model_updates` (zonos.py 1146-1202): `not_downloaded` when
the models directory is absent; `no_verification` on an empty store
(the load at line 1153 sits before the `try`, so its exceptions
propagate); `cannot_check` when the ML stack does not import; otherwise
the per-model loop, `updates_avail` when anything accumulated. -/
def check_model_updates (w : World) (fs : FS) : Py ModelStatus :=
  if !(fs.pexists models_dir_path) then .ok .not_downloaded
  else
    match load_verification_data verification_file_path fs with
    | .error e => .error e
    | .ok vdata =>
      if vdata.falsy then .ok .no_verification
      else if !w.imports_ok then
        .ok (.cannot_check "Cannot check models - dependencies not available")
      else
        match cmLoop MODEL_CONFIGS vdata w.fetch fs with
        | .error e => .error e
        | .ok [] => .ok .models_current
        | .ok l => .ok (.updates_avail l)

/-- What a `download_models` run produced: its outcome (`.ok ()` is the
Python function returning, i.e. `None`), the artifacts for which the
fetch collaborator was actually invoked, in order, and the resulting
filesystem. -/
structure DlResult where
  outcome : Py Unit
  fetched : List String
  fs : FS

/-- The per-artifact loop of `download_models` (zonos.py 1042-1073): an
already-verified artifact is skipped; an exception from the verifier
hits the run-level `except Exception` → `sys.exit(1)`; a raising fetch
is logged and re-raised by the per-artifact handler, again ending in
`sys.exit(1)`; after a successful fetch, the record save and the
ownership-fix path resolution run (both call the resolver). -/
def dlLoop (models : List (String × ModelConfig))
    (verification_data : JVal) (fetch : String → Option String)
    (now : String) (fs : FS) (acc : List String) : DlResult :=
  match models with
  | [] => ⟨.ok (), acc, fs⟩
  | (m, _cfg) :: rest =>
    match verify_model_integrity m models_dir_path verification_data fs with
    | .error (.exit c) => ⟨.error (.exit c), acc, fs⟩
    | .error (.exc _) => ⟨.error (.exit 1), acc, fs⟩
    | .ok true => dlLoop rest verification_data fetch now fs acc
    | .ok false =>
      match fetch m with
      | some _ => ⟨.error (.exit 1), acc ++ [m], fs⟩
      | none =>
        match save_model_verification m models_dir_path
            verification_file_path now fs with
        | (.error (.exit c), fs2) => ⟨.error (.exit c), acc ++ [m], fs2⟩
        | (.error (.exc _), fs2) => ⟨.error (.exit 1), acc ++ [m], fs2⟩
        | (.ok _, fs2) =>
          match get_model_cache_path m models_dir_path fs2 with
          | .error (.exit c) => ⟨.error (.exit c), acc ++ [m], fs2⟩
          | .error (.exc _) => ⟨.error (.exit 1), acc ++ [m], fs2⟩
          | .ok _ => dlLoop rest verification_data fetch now fs2 (acc ++ [m])

/-- `download_models` (zonos.py 1000-1091): create the models directory,
load the store (line 1014 sits before the `try`, so its exceptions
propagate to the caller), then — inside a `try` whose handlers end in
`sys.exit(1)` — import the ML stack and run the per-artifact loop. -/
def download_models (w : World) : DlResult :=
  let fs1 := w.fs.mkdirp models_dir_path
  match load_verification_data verification_file_path fs1 with
  | .error e => ⟨.error e, [], fs1⟩
  | .ok verification_data =>
    if !w.imports_ok then ⟨.error (.exit 1), [], fs1⟩
    else dlLoop MODEL_CONFIGS verification_data w.fetch w.now fs1 []

/-- `update_repository` (zonos.py 1205-1250): `False` when the
repository directory is absent or `chdir` fails (caught by
`except Exception`); stash, pull (`False` on a failing pull), two `uv`
syncs, then ownership normalization (no-op here) and `True`.  A missing
binary inside `run_command` exits the process. -/
def update_repository (fs : FS) (cmds : CmdEnv) : Py Bool :=
  if !(fs.pexists repo_dir_path) then .ok false
  else if !(fs.isDir repo_dir_path) then .ok false
  else
    match run_command cmds ["git", "stash"] false with
    | .error e => .error e
    | .ok _ =>
      match run_command cmds ["git", "pull", "origin", "main"] false with
      | .error e => .error e
      | .ok r =>
        if r.rc != 0 then .ok false
        else
          match run_command cmds ["./bin/uv", "sync"] false with
          | .error e => .error e
          | .ok _ =>
            match run_command cmds
                ["./bin/uv", "sync", "--extra", "compile"] false with
            | .error e => .error e
            | .ok _ => .ok true

/-- `update_models` (zonos.py 1253-1281): delete the verification file
to force a re-download, `chdir` into the repository (a failure is
caught into `False`), then `download_models`.  Its `except Exception`
catches ordinary exceptions from the download into `False`, but the
`SystemExit` that `download_models` raises on any failure escapes. -/
def update_models (w : World) : Py Bool × FS :=
  let fs1 := if w.fs.pexists verification_file_path then
               w.fs.remove verification_file_path
             else w.fs
  if !(fs1.isDir repo_dir_path) then (.ok false, fs1)
  else
    let dl := download_models { w with fs := fs1 }
    match dl.outcome with
    | .error (.exit c) => (.error (.exit c), dl.fs)
    | .error (.exc _) => (.ok false, dl.fs)
    | .ok _ => (.ok true, dl.fs)

/-- Observable milestones of the update coordinator: the start of the
repository refresh (zonos.py 1357), the start of the model refresh
(1364), and the final reporting step (1373-1374). -/
inductive UEvent where
  | repo_update_started
  | model_update_started
  | final_report
  deriving Repr, DecidableEq

/-- What a coordinator run produced: outcome, milestone trace in order,
and resulting filesystem. -/
structure UZResult where
  outcome : Py Unit
  events : List UEvent
  fs : FS

/-- The prompt normalization of `update_zonos` (zonos.py 1343-1353):
with both domains pending the lowercased reply is used verbatim; with
one domain pending a yes/no reply maps to that domain's token or
`none`. -/
def normalizeChoice (repoNeeds modelNeeds : Bool) (raw : String) :
    String :=
  let c := pyLower (pyStrip raw)
  if repoNeeds && modelNeeds then c
  else if repoNeeds then (if c == "yes" || c == "y" then "repo" else "none")
  else (if c == "yes" || c == "y" then "models" else "none")

/-- The model-refresh half of the apply phase (zonos.py 1363-1374),
followed by the final reporting step when nothing terminated the
process. -/
def applyModels (w : World) (choice : String) (evs : List UEvent) :
    UZResult :=
  if choice == "models" || choice == "both" then
    match update_models w with
    | (.error e, fs2) => ⟨.error e, evs ++ [.model_update_started], fs2⟩
    | (.ok _, fs2) =>
      ⟨.ok (), evs ++ [.model_update_started, .final_report], fs2⟩
  else ⟨.ok (), evs ++ [.final_report], w.fs⟩

/-- The apply phase of `update_zonos` (zonos.py 1356-1374): repository
refresh first when chosen (its `False` result is only logged), then the
model refresh. -/
def applyUpdates (w : World) (choice : String) : UZResult :=
  if choice == "repo" || choice == "both" then
    match update_repository w.fs w.cmds with
    | .error e => ⟨.error e, [.repo_update_started], w.fs⟩
    | .ok _ => applyModels w choice [.repo_update_started]
  else applyModels w choice []

/-- `update_zonos` (zonos.py 1284-1374): run both checkers, return
early on a missing repository or when nothing needs an update,
normalize the operator's reply, then apply. -/
def update_zonos (w : World) : UZResult :=
  match check_repository_updates w.fs w.cmds with
  | .error e => ⟨.error e, [], w.fs⟩
  | .ok repo_status =>
    match check_model_updates w w.fs with
    | .error e => ⟨.error e, [], w.fs⟩
    | .ok model_status =>
      match repo_status with
      | .not_installed _ => ⟨.ok (), [], w.fs⟩
      | _ =>
        let repo_needs := match repo_status with
          | .update_available _ _ _ _ => true
          | _ => false
        let model_needs := match model_status with
          | .updates_avail _ => true
          | _ => false
        if !repo_needs && !model_needs then ⟨.ok (), [], w.fs⟩
        else applyUpdates w (normalizeChoice repo_needs model_needs w.choice)

/-! Concrete fixtures and expected-outcome tables used by the theorems. -/

/-- The verification file holding an empty document. -/
def vfEmptyFS : FS := [(verification_file_path, .file (.text "") 7)]

/-- The verification file holding malformed (non-JSON) text. -/
def vfMalformedFS : FS :=
  [(verification_file_path, .file (.text "not json \x7b") 7)]

/-- A resolved-looking cache directory for the snapshot fixtures. -/
def snapCache : FPath := models_dir_path.child "Zonos-v0.1-hybrid"

/-- A cache tree with a `snapshots` layout whose two subdirectories have
modification times 5 (`older`) and 9 (`newer`). -/
def snapFS : FS :=
  [(models_dir_path, .dir 0),
   (snapCache, .dir 0),
   (snapCache.child "snapshots", .dir 0),
   ((snapCache.child "snapshots").child "older", .dir 5),
   ((snapCache.child "snapshots").child "newer", .dir 9)]

/-- The same tree with the modification times swapped, so the first
listed snapshot is the more recently modified one. -/
def snapFSrev : FS :=
  [(models_dir_path, .dir 0),
   (snapCache, .dir 0),
   (snapCache.child "snapshots", .dir 0),
   ((snapCache.child "snapshots").child "older", .dir 9),
   ((snapCache.child "snapshots").child "newer", .dir 5)]

/-- A command environment in which no binary can be found (for example,
git is not installed). -/
def noBinaries : CmdEnv := fun _ => .notFound

/-- A filesystem holding only the repository directory. -/
def repoOnlyFS : FS := [(repo_dir_path, .dir 0)]

/-- A command environment for the coordinator scenario: local and
remote refs differ, the distance is 2 commits, and every other command
(stash, pull, uv sync, fetch, log) completes with status 0. -/
def coordCmds : CmdEnv := fun c =>
  if c == ["git", "rev-parse", "HEAD"] then .completed 0 "aaaa1111"
  else if c == ["git", "rev-parse", "origin/main"] then .completed 0 "bbbb2222"
  else if c == ["git", "rev-list", "--count", "aaaa1111..bbbb2222"] then
    .completed 0 "2"
  else .completed 0 "ok"

/-- A filesystem for the coordinator scenario: repository and models
directory present, verification file holding a record for the hybrid
model (so the model check accumulates failures rather than reporting
`no_verification`). -/
def coordFS : FS :=
  [(repo_dir_path, .dir 0),
   (models_dir_path, .dir 0),
   (verification_file_path,
    .file (.json (.jobj [("hybrid_model", .jobj [])])) 3)]

/-- The coordinator scenario: both domains report pending updates, the
ML stack imports, every fetch probe succeeds, and the operator answers
`both`. -/
def coordWorld : World :=
  ⟨coordFS, coordCmds, true, fun _ => none, "both", "2026-01-01T00:00:00"⟩

/-- The return code of a command outcome, defaulting to 1 for outcomes
that never reach the comparison logic. -/
def CmdOutcome.rcD : CmdOutcome → Int
  | .completed rc _ => rc
  | _ => 1

/-- The captured stdout of a command outcome, defaulting to the empty
string. -/
def CmdOutcome.outD : CmdOutcome → String
  | .completed _ out => out
  | _ => ""

/-- The amended repository-check contract, as a plain decision table
over the collaborators: `not_installed` without a repository directory;
an error status carrying the `chdir` exception's message for a
non-directory repository path; `up_to_date` / `update_available` (with
the one-way commit count, 0 when the count command fails, and the
remote's latest change description, `"No message"` when unavailable)
when both refs resolve; an error status carrying the `int()` exception
message when the count output does not parse; and a fixed-message error
status when either ref cannot be determined. -/
def repo_check_expected (fs : FS) (cmds : CmdEnv) : RepoStatus :=
  if !(fs.pexists repo_dir_path) then .not_installed "Repository not found"
  else if !(fs.isDir repo_dir_path) then
    .error_status (chdirMessage repo_dir_path)
  else
    let r1 := cmds ["git", "rev-parse", "HEAD"]
    let current := if r1.rcD == 0 then pyStrip r1.outD else ""
    let r2 := cmds ["git", "rev-parse", "origin/main"]
    let remote := if r2.rcD == 0 then pyStrip r2.outD else ""
    if current != "" && remote != "" then
      if current != remote then
        let r3 := cmds ["git", "rev-list", "--count",
                        current ++ ".." ++ remote]
        match (if r3.rcD == 0 then pyInt (pyStrip r3.outD)
               else .ok 0 : Except String Int) with
        | .error m => .error_status m
        | .ok behind =>
          let r4 := cmds ["git", "log", "-1", "--pretty=format:%s",
                          "origin/main"]
          .update_available (current.take 8) (remote.take 8) behind
            (if r4.rcD == 0 then pyStrip r4.outD else "No message")
      else .up_to_date (current.take 8)
    else .error_status "Could not determine commit status"

/-! Helper lemmas. -/

/-- A command that completes is returned by `run_command` without any
process exit when `check` is off. -/
theorem run_command_of_completed (cmds : CmdEnv) (c : List String)
    (h : ∃ rc out, cmds c = .completed rc out) :
    run_command cmds c false = .ok ⟨(cmds c).rcD, (cmds c).outD⟩ := by
  obtain ⟨rc, out, h⟩ := h
  simp [run_command, h, CmdOutcome.rcD, CmdOutcome.outD]

/-- The orchestrator's loop dies on its first artifact: the verifier
raises `TypeError` through the resolver, the run-level handler turns it
into `sys.exit(1)`, and the fetch collaborator is never reached. -/
theorem dlLoop_first_artifact (vd : JVal) (fetch : String → Option String)
    (now : String) (fs : FS) (acc : List String) :
    dlLoop MODEL_CONFIGS vd fetch now fs acc = ⟨.error (.exit 1), acc, fs⟩ :=
  rfl

/-- Every `download_models` run fetches nothing, leaves the filesystem
with only the models directory created, and aborts: with `sys.exit(1)`
in every case except a directory sitting at the verification-file path,
where the pre-`try` store load raises `IsADirectoryError`. -/
theorem download_models_aborts_aux (w : World) :
    (download_models w).fetched = [] ∧
    (download_models w).fs = w.fs.mkdirp models_dir_path ∧
    ((download_models w).outcome = .error (.exit 1) ∨
     (download_models w).outcome = .error (.exc .isADirectory)) := by
  unfold download_models load_verification_data
  cases hl : FS.lookup (w.fs.mkdirp models_dir_path) verification_file_path with
  | none => cases hi : w.imports_ok <;> simp [hl, hi, dlLoop_first_artifact]
  | some e =>
    cases e with
    | dir mt => simp [hl]
    | file c mt =>
      cases c with
      | text s =>
        cases hi : w.imports_ok <;>
          simp [hl, hi, json_load, dlLoop_first_artifact]
      | json v =>
        cases hi : w.imports_ok <;>
          simp [hl, hi, json_load, dlLoop_first_artifact]

/-- For an artifact with a configuration, `save_model_verification`
always raises (the resolver's `TypeError`, or `IsADirectoryError` from
the unguarded part of its load step) and never returns. -/
theorem save_configured_raises (m : String) (cfg : ModelConfig)
    (hm : configsGet m = some cfg) (d vf : FPath) (now : String) (fs : FS) :
    ∀ u, (save_model_verification m d vf now fs).1 ≠ .ok u := by
  intro u
  unfold save_model_verification load_verification_data
  rw [hm]
  cases hl : FS.lookup fs vf with
  | none => intro h; exact Except.noConfusion h
  | some e =>
    cases e with
    | dir mt => intro h; exact Except.noConfusion h
    | file c mt =>
      cases c with
      | text s => intro h; exact Except.noConfusion h
      | json v => intro h; exact Except.noConfusion h

/-! Claim theorems. -/

/-- C1.  The claimed idempotence scenario cannot occur: no
`download_models` run ever completes successfully — every run aborts
(on any registry state, cache tree and store) before invoking the fetch
collaborator even once, because `verify_model_integrity` raises
`TypeError` through the resolver and the run-level handler calls
`sys.exit(1)`.  In particular a "second consecutive run after a
successful one" does not exist, and zero downloads are performed on
every run. -/
theorem download_models_no_run_completes (w : World) :
    (download_models w).fetched = [] ∧
    ∀ u, (download_models w).outcome ≠ .ok u := by
  refine ⟨(download_models_aborts_aux w).1, ?_⟩
  rcases (download_models_aborts_aux w).2.2 with h | h <;>
    (intro u hu; rw [h] at hu; exact Except.noConfusion hu)

/-- C2.  The verifier postcondition fails: for every artifact that has a
configuration (both registry entries), `verify_model_integrity` raises
`TypeError` — propagated from the resolver's ill-typed first candidate
path — for every cache root, store and filesystem, instead of returning
a boolean and failing closed. -/
theorem verify_model_integrity_raises_for_configured (d : FPath)
    (vd : JVal) (fs : FS) :
    verify_model_integrity "Zyphra/Zonos-v0.1-hybrid" d vd fs
      = .error (.exc .typeError) ∧
    verify_model_integrity "Zyphra/Zonos-v0.1-transformer" d vd fs
      = .error (.exc .typeError) :=
  ⟨rfl, rfl⟩

/-- C3.  Resolver totality fails: `get_model_cache_path` raises
`TypeError` for every model identity and every cache root, before any
filesystem access — the first candidate, written
`models_dir / "models--" + model_name.replace("/", "--")`, parses as
`(models_dir / "models--") + str`, which is ill-typed for
`pathlib.Path`. -/
theorem get_model_cache_path_always_raises (m : String) (d : FPath)
    (fs : FS) :
    get_model_cache_path m d fs = .error (.exc .typeError) :=
  rfl

/-- C4.  Store load robustness: `load_verification_data` on a
non-existent path, or on a file whose content is raw text (which covers
the empty file and every malformed document), returns the empty mapping
and raises nothing. -/
theorem load_verification_data_robust (vf : FPath) (fs : FS)
    (h : fs.lookup vf = none ∨
         ∃ s mt, fs.lookup vf = some (.file (.text s) mt)) :
    load_verification_data vf fs = .ok (.jobj []) := by
  rcases h with h | ⟨s, mt, h⟩ <;>
    simp [load_verification_data, h, json_load]

/-- Witness for C4: the three robustness cases of the claim — missing
file, empty file, malformed document — each evaluated concretely. -/
theorem load_verification_data_robust_witness :
    load_verification_data verification_file_path [] = .ok (.jobj []) ∧
    load_verification_data verification_file_path vfEmptyFS
      = .ok (.jobj []) ∧
    load_verification_data verification_file_path vfMalformedFS
      = .ok (.jobj []) :=
  ⟨load_verification_data_robust _ _ (Or.inl rfl),
   load_verification_data_robust _ _ (Or.inr ⟨"", 7, rfl⟩),
   load_verification_data_robust _ _ (Or.inr ⟨"not json \x7b", 7, rfl⟩)⟩

/-- C5.  The atomicity-on-fetch-failure scenario is unreachable: in
every run — including every world whose fetch collaborator would raise —
the fetch call is never invoked for any artifact, and the persisted
store is untouched: the run's only filesystem effect is creating the
models directory. -/
theorem download_models_never_fetches_nor_records (w : World) :
    (download_models w).fetched = [] ∧
    (download_models w).fs = w.fs.mkdirp models_dir_path :=
  ⟨(download_models_aborts_aux w).1, (download_models_aborts_aux w).2.1⟩

/-- C6.  The orchestrator never returns the list of freshly downloaded
artifacts: no run completes (each aborts with `sys.exit(1)`, or with
`IsADirectoryError` when a directory occupies the verification-file
path), nothing is ever fetched, and the only filesystem effect is
creating the models directory.  In the source the function is annotated
`-> None` and only logs its internal list, so even a completing run
would return no list. -/
theorem download_models_run_characterization (w : World) :
    (download_models w).fetched = [] ∧
    (download_models w).fs = w.fs.mkdirp models_dir_path ∧
    ((download_models w).outcome = .error (.exit 1) ∨
     (download_models w).outcome = .error (.exc .isADirectory)) :=
  download_models_aborts_aux w

/-- C7.  Snapshot selection is unreachable: on a cache tree with a
populated `snapshots` layout the verifier still raises `TypeError`
before selecting any snapshot.  The inlined selection logic itself,
run in isolation on that tree, does pick the snapshot subdirectory with
the greater modification time, whichever of the two is newer. -/
theorem verify_snapshot_selection_unreachable :
    verify_model_integrity "Zyphra/Zonos-v0.1-hybrid" models_dir_path
        (.jobj []) snapFS = .error (.exc .typeError) ∧
    latest_files_dir snapCache snapFS
      = .ok ((snapCache.child "snapshots").child "newer") ∧
    latest_files_dir snapCache snapFSrev
      = .ok ((snapCache.child "snapshots").child "older") :=
  ⟨rfl, rfl, rfl⟩

/-- C8 (counterexample).  A version-control failure can be fatal to the
whole checker: with the repository directory present but the git binary
missing, `run_command` calls `sys.exit(1)` on the very first fetch, so
`check_repository_updates` terminates the process and returns no status
at all — contradicting "any failure ⇒ status error, never terminates". -/
theorem check_repository_updates_exits_on_missing_binary :
    check_repository_updates repoOnlyFS noBinaries = .error (.exit 1) ∧
    ∀ st : RepoStatus,
      check_repository_updates repoOnlyFS noBinaries ≠ .ok st := by
  constructor
  · rfl
  · intro st h
    rw [show check_repository_updates repoOnlyFS noBinaries
          = .error (.exit 1) from rfl] at h
    exact Except.noConfusion h

/-- C8 (amended).  Whenever every issued version-control command
actually executes to completion (its binary is found and the runner
hits no unexpected error), `check_repository_updates` never terminates
the process and returns exactly the claimed decision table:
`not_installed` without a repository; `up_to_date` on identical refs;
`update_available` with the one-way commits-behind count and the
remote's latest change description on differing refs; and a preserved
error message otherwise.  Only a missing binary (or unexpected runner
error) escapes as a process exit. -/
theorem check_repository_updates_expected_when_commands_complete
    (fs : FS) (cmds : CmdEnv)
    (H : ∀ c : List String, ∃ rc out, cmds c = .completed rc out) :
    check_repository_updates fs cmds = .ok (repo_check_expected fs cmds) := by
  have R : ∀ c, run_command cmds c false = .ok ⟨(cmds c).rcD, (cmds c).outD⟩ :=
    fun c => run_command_of_completed cmds c (H c)
  simp only [check_repository_updates, repo_check_expected, R]
  repeat' split
  all_goals rfl

/-- Witness for the amended C8: a concrete collaborator whose every
command completes, evaluated through the theorem. -/
theorem check_repository_updates_expected_witness :
    check_repository_updates [] (fun _ => .completed 0 "abc")
      = .ok (repo_check_expected [] (fun _ => .completed 0 "abc")) :=
  check_repository_updates_expected_when_commands_complete []
    (fun _ => .completed 0 "abc") (fun _ => ⟨0, "abc", rfl⟩)

/-- C9.  In the concrete both-domains scenario (both checkers report
pending updates, the operator answers `both`, the repository refresh
succeeds), the repository refresh is indeed started before the model
refresh — but the model refresh terminates the process
(`download_models`' `sys.exit(1)` is a `SystemExit`, which
`update_models`' `except Exception` cannot catch), so the coordinator
never reaches its final reporting step: the event trace ends at
`model_update_started` with no `final_report`. -/
theorem update_zonos_exits_before_final_report :
    (update_zonos coordWorld).outcome = .error (.exit 1) ∧
    (update_zonos coordWorld).events
      = [.repo_update_started, .model_update_started] :=
  ⟨rfl, rfl⟩

/-- C10.  The frame property is unreachable because the saver never
writes at all: for every artifact and every pre-existing document,
`save_model_verification` leaves the filesystem exactly as it found it,
and for both configured artifacts it raises instead of returning — the
resolver's `TypeError` strikes before the document rewrite. -/
theorem save_model_verification_never_writes (m : String) (d vf : FPath)
    (now : String) (fs : FS) :
    (save_model_verification m d vf now fs).2 = fs ∧
    (∀ u, (save_model_verification "Zyphra/Zonos-v0.1-hybrid" d vf now
            fs).1 ≠ .ok u) ∧
    (∀ u, (save_model_verification "Zyphra/Zonos-v0.1-transformer" d vf
            now fs).1 ≠ .ok u) := by
  refine ⟨?_,
    save_configured_raises "Zyphra/Zonos-v0.1-hybrid"
      ⟨"hybrid_model", "Zonos v0.1 Hybrid Model",
       ["config.json", "pytorch_model.bin", "tokenizer.json"]⟩
      rfl d vf now fs,
    save_configured_raises "Zyphra/Zonos-v0.1-transformer"
      ⟨"transformer_model", "Zonos v0.1 Transformer Model",
       ["config.json", "pytorch_model.bin", "tokenizer.json"]⟩
      rfl d vf now fs⟩
  unfold save_model_verification
  split
  · rfl
  · split
    · rfl
    · rfl

end Zonos
